import Mathlib

/-!
Verification development for the task-management backend
(src/backend/src: task.model.ts, task.store.ts, taskValidation.ts,
task.controller.ts, task.routes.ts).

The TypeScript code is shallowly embedded: JSON body values become an
inductive type, JavaScript Date instants become a day/millisecond pair,
the in-memory Map store becomes an association list, and the
middleware/controller chain becomes explicit function composition.
Nondeterministic inputs of the code (randomUUID, the wall clock, the
number of days in the ten years after "now") become explicit parameters.
-/

/-- A JavaScript runtime value as it can appear in a parsed JSON request
body field.  JSON has no undefined, so an absent key is modelled by
Option.none one level up and jnull models an explicit JSON null. -/
inductive JVal where
  | jnull : JVal
  | jstr : String → JVal
  | jnum : Int → JVal
  | jbool : Bool → JVal
deriving DecidableEq

/-- A JavaScript Date instant: day = whole days since 1970-01-01 (so day 0
is 1970-01-01, negative for earlier dates), tod = milliseconds past
midnight of that day (0 ≤ tod < 86400000 for a real instant). -/
structure JsDate where
  day : Int
  tod : Int
deriving DecidableEq

/-- Millisecond timestamp of an instant, as JavaScript Date comparison and
getTime use. -/
def JsDate.toMs (d : JsDate) : Int := d.day * 86400000 + d.tod

/-- Models date.setHours(0, 0, 0, 0): keep the calendar day, zero the
time of day. -/
def startOfDay (d : JsDate) : JsDate := ⟨d.day, 0⟩

/-- Models tenYearsFromNow.setFullYear(getFullYear() + 10): the calendar
day moves forward by the number of days contained in the ten calendar
years after d (3652 or 3653 depending on leap years, always positive),
while the time of day is preserved.  The day count is passed explicitly
as shift. -/
def plusTenYears (d : JsDate) (shift : Int) : JsDate := ⟨d.day + shift, d.tod⟩

/-- A request-body dueDate value.  Strings are represented by their
JavaScript date-parse outcome: vdate d for a value (string, number or
Date) that new Date(...) turns into the valid instant d, vinvalid s for a
string s that parses to Invalid Date, vnull for JSON null. -/
inductive DueVal where
  | vnull : DueVal
  | vdate : JsDate → DueVal
  | vinvalid : String → DueVal
deriving DecidableEq

/-- Models new Date(v) applied to a dueDate body value: new Date(null)
is the Unix epoch 1970-01-01T00:00:00.000Z, a parsed value stays itself
(new Date(aDate) clones), an unparseable string stays Invalid Date. -/
def jsNewDate : DueVal → DueVal
  | .vnull => .vdate ⟨0, 0⟩
  | .vdate d => .vdate d
  | .vinvalid s => .vinvalid s

/-- JavaScript truthiness of a dueDate body value: null is falsy, a Date
object is truthy.  vinvalid carries the original unparsed string, whose
truthiness is that of the string (only the empty string is falsy); this
case is only reachable when the store is called without the validation
middleware. -/
def dueTruthy : DueVal → Bool
  | .vnull => false
  | .vdate _ => true
  | .vinvalid s => s ≠ ""

/-- JavaScript truthiness of a JSON value. -/
def JVal.truthy : JVal → Bool
  | .jnull => false
  | .jstr s => s ≠ ""
  | .jnum n => n ≠ 0
  | .jbool b => b

/-- One validation error, the ValidationErrorDetail of
taskValidation.ts: a field name and a message. -/
structure VErr where
  field : String
  message : String
deriving DecidableEq

/-- Object.values(TaskStatus) of task.model.ts. -/
def statusValues : List String := ["pending", "in-progress", "completed", "blocked"]

/-- Object.values(TaskPriority) of task.model.ts. -/
def priorityValues : List String := ["low", "medium", "high", "critical"]

/-- Characters removed by JavaScript String.prototype.trim at either end
(the common whitespace set). -/
def trimChars (l : List Char) : List Char :=
  ((l.dropWhile Char.isWhitespace).reverse.dropWhile Char.isWhitespace).reverse

/-- Models JavaScript text.trim(). -/
def jsTrim (s : String) : String := ⟨trimChars s.data⟩

/-- Character-level HTML escaping as sanitize-html performs on text and
on disallowed tags in recursiveEscape mode: the markup-significant
characters are replaced by entities, everything else is kept. -/
def escapeChar (c : Char) : List Char :=
  if c = '&' then ['&', 'a', 'm', 'p', ';']
  else if c = '<' then ['&', 'l', 't', ';']
  else if c = '>' then ['&', 'g', 't', ';']
  else [c]

/-- HTML-escape a whole string. -/
def escapeHtml (s : String) : String := ⟨s.data.flatMap escapeChar⟩

/-- sanitizeText of taskValidation.ts: sanitize-html with allowedTags [],
allowedAttributes {} and disallowedTagsMode recursiveEscape, followed by
.trim().  With no tag allowed, recursiveEscape escapes every tag and all
its content rather than removing it, so the whole input is re-emitted
with markup characters HTML-escaped; then the result is trimmed. -/
def sanitizeText (s : String) : String := jsTrim (escapeHtml s)

/-- validateTitle of taskValidation.ts.  none models an undefined (absent)
field. -/
def validateTitle (title : Option JVal) : Option VErr :=
  match title with
  | none => some ⟨"title", "Title is required"⟩
  | some .jnull => some ⟨"title", "Title is required"⟩
  | some (.jstr s) =>
    if (jsTrim s).length < 3 then
      some ⟨"title", "Title must be at least 3 characters long"⟩
    else if (jsTrim s).length > 100 then
      some ⟨"title", "Title must not exceed 100 characters"⟩
    else none
  | some _ => some ⟨"title", "Title must be a string"⟩

/-- validateDescription of taskValidation.ts: optional, string, at most
500 characters (untrimmed). -/
def validateDescription (description : Option JVal) : Option VErr :=
  match description with
  | none => none
  | some .jnull => none
  | some (.jstr s) =>
    if s.length > 500 then
      some ⟨"description", "Description must not exceed 500 characters"⟩
    else none
  | some _ => some ⟨"description", "Description must be a string"⟩

/-- validateStatus of taskValidation.ts: optional, must be one of the
TaskStatus enum values; a non-string value is never included in the enum
value list, so it produces the same membership error. -/
def validateStatus (status : Option JVal) : Option VErr :=
  match status with
  | none => none
  | some .jnull => none
  | some (.jstr s) =>
    if s ∈ statusValues then none
    else some ⟨"status", "Status must be one of: " ++ String.intercalate ", " statusValues⟩
  | some _ => some ⟨"status", "Status must be one of: " ++ String.intercalate ", " statusValues⟩

/-- validatePriority of taskValidation.ts, same shape as validateStatus
against the TaskPriority enum. -/
def validatePriority (priority : Option JVal) : Option VErr :=
  match priority with
  | none => none
  | some .jnull => none
  | some (.jstr s) =>
    if s ∈ priorityValues then none
    else some ⟨"priority", "Priority must be one of: " ++ String.intercalate ", " priorityValues⟩
  | some _ => some ⟨"priority", "Priority must be one of: " ++ String.intercalate ", " priorityValues⟩

/-- validateDueDate of taskValidation.ts.  now is the wall-clock instant
at which the validator runs, shift the day count of plusTenYears.  The
past check compares start-of-day instants; the ten-year check compares
the full timestamp of the due date against now moved ten calendar years
forward (date > tenYearsFromNow in the source). -/
def validateDueDate (dueDate : Option DueVal) (now : JsDate) (shift : Int) : Option VErr :=
  match dueDate with
  | none => none
  | some .vnull => none
  | some (.vinvalid _) =>
    some ⟨"dueDate", "Due date must be a valid date (ISO 8601 format: YYYY-MM-DD or YYYY-MM-DDTHH:mm:ss)"⟩
  | some (.vdate d) =>
    if (startOfDay d).toMs < (startOfDay now).toMs then
      some ⟨"dueDate", "Due date must be today or in the future"⟩
    else if (plusTenYears now shift).toMs < d.toMs then
      some ⟨"dueDate", "Due date must not be more than 10 years in the future"⟩
    else none

/-- A parsed JSON request body as the task endpoints read it.  The five
recognised fields are destructured by the middleware; bodyId and
bodyCreatedAt model extra "id" / "createdAt" keys a client may include in
the body — the middleware never looks at them, but the object spread in
TaskStore.updateTask copies them.  none models an absent key. -/
structure Payload where
  title : Option JVal := none
  description : Option JVal := none
  status : Option JVal := none
  priority : Option JVal := none
  dueDate : Option DueVal := none
  bodyId : Option String := none
  bodyCreatedAt : Option JsDate := none
deriving DecidableEq

/-- The error list built by validateCreateTask: all five field validators
run unconditionally, in source order, and every non-null result is
pushed. -/
def createErrors (p : Payload) (now : JsDate) (shift : Int) : List VErr :=
  [validateTitle p.title, validateDescription p.description, validateStatus p.status,
   validatePriority p.priority, validateDueDate p.dueDate now shift].filterMap id

/-- The sanitization pass of validateCreateTask after the error check:
if (title) req.body.title = sanitizeText(title) — a truthiness guard, so
a falsy (empty-string) value is left untouched.  A present non-string
value never reaches this point through validateCreateTask (validation
would have failed) and is modelled as left unchanged. -/
def truthySanitize (v : Option JVal) : Option JVal :=
  match v with
  | some (.jstr s) => if s = "" then some (.jstr s) else some (.jstr (sanitizeText s))
  | x => x

/-- The dueDate conversion of validateCreateTask:
if (dueDate) req.body.dueDate = new Date(dueDate) — truthiness guard, so
an explicit null is left as null. -/
def convDueCreate (v : Option DueVal) : Option DueVal :=
  match v with
  | some d => if dueTruthy d then some (jsNewDate d) else some d
  | none => none

/-- validateCreateTask of taskValidation.ts: collects all five validators'
errors; if any, fails with the whole list; otherwise sanitizes title and
description (truthiness-guarded) and converts a truthy dueDate to a Date,
mutating the body in place, and passes the body on. -/
def validateCreateTask (p : Payload) (now : JsDate) (shift : Int) :
    Except (List VErr) Payload :=
  let errs := createErrors p now shift
  if errs.isEmpty then
    .ok { p with
          title := truthySanitize p.title,
          description := truthySanitize p.description,
          dueDate := convDueCreate p.dueDate }
  else .error errs

/-- The at-least-one-field check of validateUpdateTask: true when all of
title, description, status, priority, dueDate are undefined (absent);
an explicit null key counts as present. -/
def updateAllAbsent (p : Payload) : Bool :=
  p.title.isNone && p.description.isNone && p.status.isNone &&
  p.priority.isNone && p.dueDate.isNone

/-- The error list built by validateUpdateTask: each field validator runs
only when its field is present (not undefined), in source order, and
every non-null result is pushed. -/
def updateErrors (p : Payload) (now : JsDate) (shift : Int) : List VErr :=
  [(if p.title.isSome then validateTitle p.title else none),
   (if p.description.isSome then validateDescription p.description else none),
   (if p.status.isSome then validateStatus p.status else none),
   (if p.priority.isSome then validatePriority p.priority else none),
   (if p.dueDate.isSome then validateDueDate p.dueDate now shift else none)].filterMap id

/-- The sanitization/conversion pass of validateUpdateTask after the
error check, guarded by !== undefined rather than truthiness: a present
title is sanitized (a null title never reaches this point: validation
rejects it); a present null description is passed to sanitizeText, whose
null guard returns the empty string; a present dueDate is converted with
new Date, turning null into the Unix epoch. -/
def updateSanitize (p : Payload) : Payload :=
  { p with
    title := match p.title with
      | some (.jstr s) => some (.jstr (sanitizeText s))
      | t => t,
    description := match p.description with
      | some (.jstr s) => some (.jstr (sanitizeText s))
      | some .jnull => some (.jstr "")
      | t => t,
    dueDate := match p.dueDate with
      | some v => some (jsNewDate v)
      | none => none }

/-- validateUpdateTask of taskValidation.ts: rejects an all-absent body
with a single body error before running any field validator; otherwise
validates only the present fields, fails with the whole collected list if
any error, and on success sanitizes/converts the present fields in
place. -/
def validateUpdateTask (p : Payload) (now : JsDate) (shift : Int) :
    Except (List VErr) Payload :=
  if updateAllAbsent p then
    .error [⟨"body", "At least one field (title, description, status, priority, or dueDate) must be provided for update"⟩]
  else
    let errs := updateErrors p now shift
    if errs.isEmpty then .ok (updateSanitize p) else .error errs

/-- Checks one character of a candidate UUID v4 string against the regex
of validateTaskId (case-insensitive): hyphens at positions 8, 13, 18, 23,
the version nibble 4 at position 14, the variant nibble [89ab] (either
case) at position 19, hex digits everywhere else. -/
def uuidCharOk (i : Nat) (c : Char) : Bool :=
  if i = 8 ∨ i = 13 ∨ i = 18 ∨ i = 23 then c = '-'
  else if i = 14 then c = '4'
  else if i = 19 then c = '8' ∨ c = '9' ∨ c = 'a' ∨ c = 'b' ∨ c = 'A' ∨ c = 'B'
  else c.isDigit ∨ ('a' ≤ c ∧ c ≤ 'f') ∨ ('A' ≤ c ∧ c ≤ 'F')

/-- The UUID v4 regex test of validateTaskId. -/
def isUuidV4 (s : String) : Bool :=
  s.length = 36 && s.data.enum.all fun ic => uuidCharOk ic.1 ic.2

/-- validateTaskId of taskValidation.ts: the id path parameter is always
a string, so the !id guard fires exactly on the empty string; otherwise
the UUID v4 regex decides.  some errs models throwing a ValidationError
carrying errs; none models calling next(). -/
def validateTaskId (id : String) : Option (List VErr) :=
  if id = "" then some [⟨"id", "Task ID is required"⟩]
  else if isUuidV4 id then none
  else some [⟨"id", "Invalid task ID format (must be a valid UUID v4)"⟩]

/-- A stored task record (the Task interface of task.model.ts; named
TaskRec here because Task is taken by the Lean core library) as it exists
at runtime.
Field types follow the JavaScript runtime, not the TypeScript
annotations: title/description/status/priority hold whatever JSON value
was written (none models undefined), dueDate holds a Date or is absent.
The declared interface promises status : TaskStatus and
priority : TaskPriority; whether the runtime always honours that is
exactly what the invariant claims are about. -/
structure TaskRec where
  id : String
  title : Option JVal
  description : Option JVal
  status : Option JVal
  priority : Option JVal
  dueDate : Option DueVal
  createdAt : JsDate
  updatedAt : JsDate
deriving DecidableEq

/-- The in-memory Map of TaskStore as an association list with unique
keys (Map iteration order is insertion order). -/
abbrev TaskStore := List (String × TaskRec)

/-- Map.get: the task stored under id, if any. -/
def storeGet (st : TaskStore) (id : String) : Option TaskRec :=
  (st.find? fun kv => kv.1 == id).map Prod.snd

/-- Map.set: replace an existing entry in place, else append. -/
def storeSet (st : TaskStore) (id : String) (t : TaskRec) : TaskStore :=
  if (st.find? fun kv => kv.1 == id).isSome then
    st.map fun kv => if kv.1 == id then (id, t) else kv
  else st ++ [(id, t)]

/-- Map.delete: remove the entry under id. -/
def storeDel (st : TaskStore) (id : String) : TaskStore :=
  st.filter fun kv => kv.1 != id

/-- TaskStore.createTask of task.store.ts.  newId stands for the
randomUUID() result and now for the new Date() calls.  status and
priority use JavaScript || against the defaults, so a falsy supplied
value (null, empty string) also yields the default; dueDate uses a
truthiness guard and a new Date conversion. -/
def createTaskOp (st : TaskStore) (p : Payload) (newId : String) (now : JsDate) :
    TaskRec × TaskStore :=
  let t : TaskRec :=
    { id := newId,
      title := p.title,
      description := p.description,
      status := some (match p.status with
        | some v => if v.truthy then v else .jstr "pending"
        | none => .jstr "pending"),
      priority := some (match p.priority with
        | some v => if v.truthy then v else .jstr "medium"
        | none => .jstr "medium"),
      dueDate := match p.dueDate with
        | some v => if dueTruthy v then some (jsNewDate v) else none
        | none => none,
      createdAt := now,
      updatedAt := now }
  (t, storeSet st newId t)

/-- TaskStore.updateTask of task.store.ts: looks the task up; if absent
returns undefined and leaves the store unchanged; otherwise builds
{ ...existingTask, ...taskData, dueDate: ..., updatedAt: new Date() }.
The spread copies every key present in the body over the existing record
— including extra id / createdAt keys — after which the explicit dueDate
(converted via new Date when present, kept otherwise) and updatedAt
fields win. -/
def updateTaskOp (st : TaskStore) (id : String) (p : Payload) (now : JsDate) :
    Option TaskRec × TaskStore :=
  match storeGet st id with
  | none => (none, st)
  | some t =>
    let t2 : TaskRec :=
      { id := p.bodyId.getD t.id,
        title := match p.title with | some v => some v | none => t.title,
        description := match p.description with | some v => some v | none => t.description,
        status := match p.status with | some v => some v | none => t.status,
        priority := match p.priority with | some v => some v | none => t.priority,
        dueDate := match p.dueDate with | some v => some (jsNewDate v) | none => t.dueDate,
        createdAt := p.bodyCreatedAt.getD t.createdAt,
        updatedAt := now }
    (some t2, storeSet st id t2)

/-- What a route handler reports back (task.controller.ts response
shapes): a 400 validation failure with its error list, a 404 with the
missing id, a task payload, or a delete confirmation. -/
inductive Resp where
  | verrs : List VErr → Resp
  | notFound : String → Resp
  | okTask : TaskRec → Resp
  | okDeleted : Resp
deriving DecidableEq

/-- GET /api/tasks/:id — validateTaskId then getTaskById
(task.routes.ts + task.controller.ts). -/
def routeGet (id : String) (st : TaskStore) : Resp × TaskStore :=
  match validateTaskId id with
  | some errs => (.verrs errs, st)
  | none =>
    match storeGet st id with
    | none => (.notFound id, st)
    | some t => (.okTask t, st)

/-- POST /api/tasks — validateCreateTask then TaskStore.createTask. -/
def routeCreate (p : Payload) (newId : String) (now : JsDate) (shift : Int)
    (st : TaskStore) : Resp × TaskStore :=
  match validateCreateTask p now shift with
  | .error errs => (.verrs errs, st)
  | .ok p2 =>
    let r := createTaskOp st p2 newId now
    (.okTask r.1, r.2)

/-- PUT /api/tasks/:id — validateTaskId, validateUpdateTask, then
TaskStore.updateTask. -/
def routeUpdate (id : String) (p : Payload) (now : JsDate) (shift : Int)
    (st : TaskStore) : Resp × TaskStore :=
  match validateTaskId id with
  | some errs => (.verrs errs, st)
  | none =>
    match validateUpdateTask p now shift with
    | .error errs => (.verrs errs, st)
    | .ok p2 =>
      match updateTaskOp st id p2 now with
      | (none, st2) => (.notFound id, st2)
      | (some t, st2) => (.okTask t, st2)

/-- DELETE /api/tasks/:id — validateTaskId then TaskStore.deleteTask. -/
def routeDelete (id : String) (st : TaskStore) : Resp × TaskStore :=
  match validateTaskId id with
  | some errs => (.verrs errs, st)
  | none =>
    if (storeGet st id).isSome then (.okDeleted, storeDel st id)
    else (.notFound id, st)

/-- A syntactically valid UUID v4 used as a stored task id in concrete
scenarios. -/
def goodUuid : String := "12345678-1234-4123-8123-123456789abc"

/-- A well-formed stored task used as the pre-state of concrete
scenarios. -/
def task0 : TaskRec :=
  { id := goodUuid,
    title := some (.jstr "Sample task"),
    description := none,
    status := some (.jstr "pending"),
    priority := some (.jstr "medium"),
    dueDate := none,
    createdAt := ⟨20000, 100⟩,
    updatedAt := ⟨20000, 100⟩ }

/-- A store holding exactly task0. -/
def store0 : TaskStore := [(goodUuid, task0)]

/-- The record task0 becomes after the accepted update whose body is
exactly status: null. -/
def taskAfterNullStatus : TaskRec :=
  { task0 with status := some .jnull, updatedAt := ⟨20001, 0⟩ }

/-- Claim C1: the claim states that a stored task's status and priority
are always enumeration members, in particular after an update whose
payload sets them explicitly to null.  The code violates this: an update
body of exactly status: null passes the whole validated pipeline
(validateStatus treats null as an absent optional field) and the object
spread in TaskStore.updateTask then overwrites the stored status with
null, which is not a member of the status enumeration — contradicting the
declared Task interface field status : TaskStatus. -/
theorem c1_null_status_update_stores_null :
    routeUpdate goodUuid { status := some .jnull } ⟨20001, 0⟩ 3652 store0
      = (.okTask taskAfterNullStatus, [(goodUuid, taskAfterNullStatus)]) ∧
    taskAfterNullStatus.status = some .jnull ∧
    (¬ ∃ s, s ∈ statusValues ∧ taskAfterNullStatus.status = some (.jstr s)) := by
  refine ⟨by decide, rfl, ?_⟩
  rintro ⟨s, -, hs⟩
  simp [taskAfterNullStatus, task0] at hs

/-- The update body of the mass-assignment scenario: a valid title plus
extra id and createdAt keys. -/
def massAssignPayload : Payload :=
  { title := some (.jstr "Hacked title"),
    bodyId := some "evil-id",
    bodyCreatedAt := some ⟨1, 2⟩ }

/-- The record task0 becomes after the accepted mass-assignment update. -/
def taskAfterMassAssign : TaskRec :=
  { task0 with
    id := "evil-id",
    title := some (.jstr "Hacked title"),
    createdAt := ⟨1, 2⟩,
    updatedAt := ⟨20002, 0⟩ }

/-- Claim C2: the claim states that an update never modifies id or
createdAt, even when the body carries id or createdAt keys.  The code
violates this: validateUpdateTask checks only the five known fields, so a
body with a valid title plus extra id and createdAt keys is accepted, and
the object spread in TaskStore.updateTask copies those keys into the
stored record, changing both id and createdAt — contradicting the
declared UpdateTaskDTO shape and the id-immutability the model
documents. -/
theorem c2_update_mass_assignment_overwrites_id :
    routeUpdate goodUuid massAssignPayload ⟨20002, 0⟩ 3652 store0
      = (.okTask taskAfterMassAssign, [(goodUuid, taskAfterMassAssign)]) ∧
    taskAfterMassAssign.id ≠ task0.id ∧
    taskAfterMassAssign.createdAt ≠ task0.createdAt := by
  refine ⟨by decide, by decide, by decide⟩

/-- The record task0 becomes after an update performed at an instant
equal to its stored updatedAt. -/
def taskAfterSameInstant : TaskRec :=
  { task0 with title := some (.jstr "New title") }

/-- Claim C3, counterexample: updatedAt is not strictly greater after
every update.  TaskStore.updateTask sets updatedAt to the current clock
reading; an update executed at the same millisecond as the stored
updatedAt (here both ⟨20000, 100⟩) leaves updatedAt unchanged, refuting
the strict inequality the claim states. -/
theorem c3_same_instant_update_not_strict :
    (updateTaskOp store0 goodUuid { title := some (.jstr "New title") } ⟨20000, 100⟩).1
      = some taskAfterSameInstant ∧
    ¬ task0.updatedAt.toMs < taskAfterSameInstant.updatedAt.toMs := by
  refine ⟨by decide, by decide⟩

/-- Claim C3, amended: fields absent from the update payload retain their
prior stored value, and updatedAt is set to the clock reading of the
update, so it strictly increases exactly when that reading is strictly
later than the pre-update updatedAt. -/
theorem c3_update_frame (st : TaskStore) (id : String) (t : TaskRec) (p : Payload)
    (now : JsDate) (h : storeGet st id = some t) :
    ∃ t2, (updateTaskOp st id p now).1 = some t2 ∧
      (p.title = none → t2.title = t.title) ∧
      (p.description = none → t2.description = t.description) ∧
      (p.status = none → t2.status = t.status) ∧
      (p.priority = none → t2.priority = t.priority) ∧
      (p.dueDate = none → t2.dueDate = t.dueDate) ∧
      t2.updatedAt = now ∧
      (t.updatedAt.toMs < now.toMs → t.updatedAt.toMs < t2.updatedAt.toMs) := by
  unfold updateTaskOp
  rw [h]
  refine ⟨_, rfl, ?_, ?_, ?_, ?_, ?_, rfl, ?_⟩
  · intro hp; simp [hp]
  · intro hp; simp [hp]
  · intro hp; simp [hp]
  · intro hp; simp [hp]
  · intro hp; simp [hp]
  · intro hlt; exact hlt

/-- The update payload of the C3 witness scenario. -/
def frameWitnessPayload : Payload := { status := some (.jstr "completed") }

/-- Witness for c3_update_frame at a concrete store, task, payload and
instant. -/
theorem c3_update_frame_witness :
    ∃ t2, (updateTaskOp store0 goodUuid frameWitnessPayload ⟨20111, 0⟩).1 = some t2 ∧
      (frameWitnessPayload.title = none → t2.title = task0.title) ∧
      (frameWitnessPayload.description = none → t2.description = task0.description) ∧
      (frameWitnessPayload.status = none → t2.status = task0.status) ∧
      (frameWitnessPayload.priority = none → t2.priority = task0.priority) ∧
      (frameWitnessPayload.dueDate = none → t2.dueDate = task0.dueDate) ∧
      t2.updatedAt = ⟨20111, 0⟩ ∧
      (task0.updatedAt.toMs < (⟨20111, 0⟩ : JsDate).toMs →
        task0.updatedAt.toMs < t2.updatedAt.toMs) :=
  c3_update_frame store0 goodUuid task0 frameWitnessPayload ⟨20111, 0⟩ (by decide)

/-- trimChars only removes characters, so its result is a sublist of the
input. -/
theorem trimChars_sublist (l : List Char) : List.Sublist (trimChars l) l := by
  unfold trimChars
  have h1 : List.Sublist
      ((l.dropWhile Char.isWhitespace).reverse.dropWhile Char.isWhitespace)
      (l.dropWhile Char.isWhitespace).reverse := List.dropWhile_sublist _
  have h2 := h1.reverse
  rw [List.reverse_reverse] at h2
  exact h2.trans (List.dropWhile_sublist _)

/-- No character produced by escapeChar is a raw angle bracket: the
bracket characters themselves are replaced by entities and every other
character is kept unchanged. -/
theorem escapeChar_no_angle (c d : Char) (hd : d ∈ escapeChar c) :
    d ≠ '<' ∧ d ≠ '>' := by
  unfold escapeChar at hd
  split_ifs at hd with h1 h2 h3
  · simp at hd
    rcases hd with rfl | rfl | rfl | rfl | rfl <;> exact ⟨by decide, by decide⟩
  · simp at hd
    rcases hd with rfl | rfl | rfl | rfl <;> exact ⟨by decide, by decide⟩
  · simp at hd
    rcases hd with rfl | rfl | rfl | rfl <;> exact ⟨by decide, by decide⟩
  · simp at hd
    subst hd
    exact ⟨h2, h3⟩

/-- escapeChar expands a character to at most five characters. -/
theorem escapeChar_length (c : Char) : (escapeChar c).length ≤ 5 := by
  unfold escapeChar
  split_ifs <;> simp

/-- Escaping a character list expands it by at most a factor of five. -/
theorem flatMap_escapeChar_length (l : List Char) :
    (l.flatMap escapeChar).length ≤ 5 * l.length := by
  induction l with
  | nil => simp
  | cons c l ih =>
    rw [List.flatMap_cons, List.length_append]
    have hc := escapeChar_length c
    simp only [List.length_cons]
    omega

/-- A 100-character title made of 25 copies of a four-character tag;
it passes validateTitle but escapes to 250 characters. -/
def tagTitle : String := String.join (List.replicate 25 "<ab>")

set_option maxRecDepth 4000 in
/-- Claim C4, counterexample: the claim states that the sanitized text's
length never exceeds the 100-character bound that held before
sanitization.  Because sanitize-html in recursiveEscape mode escapes
disallowed tags instead of removing them, each angle bracket grows to a
four-character entity: a valid 100-character title made of tags sanitizes
to 250 characters, far beyond the bound, so re-validation would fail. -/
theorem c4_escaped_title_exceeds_bound :
    validateTitle (some (.jstr tagTitle)) = none ∧
    100 < (sanitizeText tagTitle).length := by
  refine ⟨by decide, by decide⟩

/-- Claim C4, amended: sanitizing a title that passed the title validator
yields text containing no raw angle-bracket characters (hence no HTML
tags), and the sanitized length is at most five times the original — but
it is not bounded by the original 100-character limit, because escaping
expands markup characters. -/
theorem c4_sanitized_title_tag_free (s : String)
    (_h : validateTitle (some (.jstr s)) = none) :
    (∀ c ∈ (sanitizeText s).data, c ≠ '<' ∧ c ≠ '>') ∧
    (sanitizeText s).length ≤ 5 * s.length := by
  constructor
  · intro c hc
    have hc2 : c ∈ (escapeHtml s).data :=
      (trimChars_sublist (escapeHtml s).data).subset hc
    obtain ⟨a, -, hca⟩ := List.mem_flatMap.mp hc2
    exact escapeChar_no_angle a c hca
  · have h1 : (sanitizeText s).length ≤ (escapeHtml s).length :=
      (trimChars_sublist (escapeHtml s).data).length_le
    have h2 : (escapeHtml s).length ≤ 5 * s.length :=
      flatMap_escapeChar_length s.data
    omega

/-- A benign title containing markup, used to witness
c4_sanitized_title_tag_free. -/
def benignTitle : String := "Review <b>quarterly</b> report"

/-- Witness for c4_sanitized_title_tag_free at a concrete title. -/
theorem c4_sanitized_title_tag_free_witness :
    validateTitle (some (.jstr benignTitle)) = none ∧
    ((∀ c ∈ (sanitizeText benignTitle).data, c ≠ '<' ∧ c ≠ '>') ∧
     (sanitizeText benignTitle).length ≤ 5 * benignTitle.length) :=
  ⟨by decide, c4_sanitized_title_tag_free benignTitle (by decide)⟩

/-- The past-date error descriptor of validateDueDate. -/
def pastDueErr : VErr := ⟨"dueDate", "Due date must be today or in the future"⟩

/-- The too-far-future error descriptor of validateDueDate. -/
def futureDueErr : VErr := ⟨"dueDate", "Due date must not be more than 10 years in the future"⟩

/-- Claim C5, counterexample: the claim states that both due-date
comparisons are made at calendar-day granularity.  The ten-year check is
not: with now one second past midnight of day 0 and a due date on day
3652 (exactly the day ten years later) but one second further into that
day, the full-timestamp comparison date > tenYearsFromNow fires and the
validator rejects, even though the due date falls on the same calendar
day as the ten-year mark, which a day-granularity comparison would
accept. -/
theorem c5_ten_year_check_not_day_granular :
    validateDueDate (some (.vdate ⟨3652, 2000⟩)) ⟨0, 1000⟩ 3652 = some futureDueErr ∧
    (⟨3652, 2000⟩ : JsDate).day = (plusTenYears ⟨0, 1000⟩ 3652).day := by
  refine ⟨by decide, by decide⟩

/-- Claim C5, amended: for a parsed due date, the past-date error fires
exactly when the date's calendar day is strictly before the current day
(day granularity, so a due date today is always accepted), while the
too-far-future error fires exactly when the date is not past and its full
millisecond timestamp exceeds the instant exactly ten years after now —
a time-of-day-sensitive comparison, not a day-granularity one.
Hypotheses: the ten-year day shift is positive and both instants carry a
time of day inside a real day. -/
theorem c5_due_date_validator (d now : JsDate) (shift : Int) (hs : 0 < shift)
    (hd : d.tod < 86400000) (hn : 0 ≤ now.tod) :
    (validateDueDate (some (.vdate d)) now shift = some pastDueErr ↔ d.day < now.day) ∧
    (validateDueDate (some (.vdate d)) now shift = some futureDueErr ↔
      (now.day ≤ d.day ∧ (plusTenYears now shift).toMs < d.toMs)) ∧
    (d.day = now.day → validateDueDate (some (.vdate d)) now shift = none) := by
  have hne : pastDueErr ≠ futureDueErr := by decide
  simp only [validateDueDate, startOfDay, plusTenYears, JsDate.toMs, pastDueErr, futureDueErr]
  split_ifs with h1 h2
  · refine ⟨?_, ?_, ?_⟩
    · constructor
      · intro _; omega
      · intro _; rfl
    · constructor
      · intro hEq
        exact absurd (Option.some.inj hEq) (by decide)
      · rintro ⟨hle, -⟩
        exfalso; omega
    · intro heq; exfalso; omega
  · refine ⟨?_, ?_, ?_⟩
    · constructor
      · intro hEq
        exact absurd (Option.some.inj hEq) (by decide)
      · intro hlt; exfalso; omega
    · constructor
      · intro _; exact ⟨by omega, by omega⟩
      · intro _; rfl
    · intro heq; exfalso; omega
  · refine ⟨?_, ?_, ?_⟩
    · constructor
      · intro hEq; simp at hEq
      · intro hlt; exfalso; omega
    · constructor
      · intro hEq; simp at hEq
      · rintro ⟨-, hlt⟩; exfalso; omega
    · intro _; rfl

/-- Witness for c5_due_date_validator: a due date one day after now,
one hour into its day. -/
theorem c5_due_date_validator_witness :
    ((0 : Int) < 3652 ∧ (⟨20006, 3600000⟩ : JsDate).tod < 86400000 ∧
      (0 : Int) ≤ (⟨20005, 43200000⟩ : JsDate).tod) ∧
    ((validateDueDate (some (.vdate ⟨20006, 3600000⟩)) ⟨20005, 43200000⟩ 3652
        = some pastDueErr ↔ (⟨20006, 3600000⟩ : JsDate).day < (⟨20005, 43200000⟩ : JsDate).day) ∧
     (validateDueDate (some (.vdate ⟨20006, 3600000⟩)) ⟨20005, 43200000⟩ 3652
        = some futureDueErr ↔
        ((⟨20005, 43200000⟩ : JsDate).day ≤ (⟨20006, 3600000⟩ : JsDate).day ∧
         (plusTenYears ⟨20005, 43200000⟩ 3652).toMs < (⟨20006, 3600000⟩ : JsDate).toMs)) ∧
     ((⟨20006, 3600000⟩ : JsDate).day = (⟨20005, 43200000⟩ : JsDate).day →
        validateDueDate (some (.vdate ⟨20006, 3600000⟩)) ⟨20005, 43200000⟩ 3652 = none)) :=
  ⟨⟨by decide, by decide, by decide⟩,
   c5_due_date_validator ⟨20006, 3600000⟩ ⟨20005, 43200000⟩ 3652
     (by decide) (by decide) (by decide)⟩

/-- A member of an error list built with filterMap id was one of the
collected options. -/
theorem mem_filterMap_id {l : List (Option VErr)} {e : VErr}
    (h : e ∈ l.filterMap id) : some e ∈ l := by
  obtain ⟨a, ha, hae⟩ := List.mem_filterMap.mp h
  rwa [show a = some e from hae] at ha

/-- If a five-element collected error list is empty, every validator
returned none. -/
theorem filterMap5_eq_nil {o1 o2 o3 o4 o5 : Option VErr}
    (h : [o1, o2, o3, o4, o5].filterMap id = []) :
    o1 = none ∧ o2 = none ∧ o3 = none ∧ o4 = none ∧ o5 = none := by
  cases o1 <;> cases o2 <;> cases o3 <;> cases o4 <;> cases o5 <;> simp_all [List.filterMap]

/-- Every error produced by validateDescription names the description
field. -/
theorem validateDescription_field (v : Option JVal) (e : VErr)
    (h : validateDescription v = some e) : e.field = "description" := by
  rcases v with _ | v
  · simp [validateDescription] at h
  · rcases v with _ | s | n | b
    · simp [validateDescription] at h
    · simp only [validateDescription] at h
      split_ifs at h <;> (cases Option.some.inj h; rfl)
    · cases Option.some.inj h; rfl
    · cases Option.some.inj h; rfl

/-- Every error produced by validateStatus names the status field. -/
theorem validateStatus_field (v : Option JVal) (e : VErr)
    (h : validateStatus v = some e) : e.field = "status" := by
  rcases v with _ | v
  · simp [validateStatus] at h
  · rcases v with _ | s | n | b
    · simp [validateStatus] at h
    · simp only [validateStatus] at h
      split_ifs at h <;> (cases Option.some.inj h; rfl)
    · cases Option.some.inj h; rfl
    · cases Option.some.inj h; rfl

/-- Every error produced by validatePriority names the priority field. -/
theorem validatePriority_field (v : Option JVal) (e : VErr)
    (h : validatePriority v = some e) : e.field = "priority" := by
  rcases v with _ | v
  · simp [validatePriority] at h
  · rcases v with _ | s | n | b
    · simp [validatePriority] at h
    · simp only [validatePriority] at h
      split_ifs at h <;> (cases Option.some.inj h; rfl)
    · cases Option.some.inj h; rfl
    · cases Option.some.inj h; rfl

/-- Every error produced by validateDueDate names the dueDate field. -/
theorem validateDueDate_field (v : Option DueVal) (now : JsDate) (shift : Int) (e : VErr)
    (h : validateDueDate v now shift = some e) : e.field = "dueDate" := by
  rcases v with _ | v
  · simp [validateDueDate] at h
  · rcases v with _ | d | s
    · simp [validateDueDate] at h
    · simp only [validateDueDate] at h
      split_ifs at h <;> (cases Option.some.inj h; rfl)
    · cases Option.some.inj h; rfl

/-- Claim C6: create-mode validation runs all five field validators,
collects every non-null error in validator order into one list, and
fails once with the whole list when it is non-empty (all-at-once
reporting); the payload with an empty title and a bogus status yields a
single failure listing both the title error and the status error. -/
theorem c6_create_validation_collects_all (p : Payload) (now : JsDate) (shift : Int) :
    (createErrors p now shift ≠ [] →
      validateCreateTask p now shift = .error (createErrors p now shift)) ∧
    (createErrors p now shift = [] → ∃ q, validateCreateTask p now shift = .ok q) ∧
    createErrors p now shift
      = [validateTitle p.title, validateDescription p.description, validateStatus p.status,
         validatePriority p.priority, validateDueDate p.dueDate now shift].filterMap id ∧
    validateCreateTask { title := some (.jstr ""), status := some (.jstr "bogus") } now shift
      = .error [⟨"title", "Title must be at least 3 characters long"⟩,
                ⟨"status", "Status must be one of: pending, in-progress, completed, blocked"⟩] := by
  refine ⟨?_, ?_, rfl, rfl⟩
  · intro hne
    cases hE : createErrors p now shift with
    | nil => exact absurd hE hne
    | cons a l => simp [validateCreateTask, hE]
  · intro he
    exact ⟨{ p with
             title := truthySanitize p.title,
             description := truthySanitize p.description,
             dueDate := convDueCreate p.dueDate },
           by simp [validateCreateTask, he]⟩

/-- The payload of the C6 witness scenario: empty title, bogus status. -/
def badCreatePayload : Payload :=
  { title := some (.jstr ""), status := some (.jstr "bogus") }

/-- Witness for c6_create_validation_collects_all at a concrete payload
whose collected error list is non-empty. -/
theorem c6_create_validation_witness :
    (createErrors badCreatePayload ⟨20000, 0⟩ 3652 ≠ [] →
      validateCreateTask badCreatePayload ⟨20000, 0⟩ 3652
        = .error (createErrors badCreatePayload ⟨20000, 0⟩ 3652)) ∧
    (createErrors badCreatePayload ⟨20000, 0⟩ 3652 = [] →
      ∃ q, validateCreateTask badCreatePayload ⟨20000, 0⟩ 3652 = .ok q) ∧
    createErrors badCreatePayload ⟨20000, 0⟩ 3652
      = [validateTitle badCreatePayload.title,
         validateDescription badCreatePayload.description,
         validateStatus badCreatePayload.status,
         validatePriority badCreatePayload.priority,
         validateDueDate badCreatePayload.dueDate ⟨20000, 0⟩ 3652].filterMap id ∧
    validateCreateTask { title := some (.jstr ""), status := some (.jstr "bogus") } ⟨20000, 0⟩ 3652
      = .error [⟨"title", "Title must be at least 3 characters long"⟩,
                ⟨"status", "Status must be one of: pending, in-progress, completed, blocked"⟩] :=
  c6_create_validation_collects_all badCreatePayload ⟨20000, 0⟩ 3652

/-- The body error descriptor of validateUpdateTask. -/
def bodyRequiredErr : VErr :=
  ⟨"body", "At least one field (title, description, status, priority, or dueDate) must be provided for update"⟩

/-- When the title field is absent from an update payload, the collected
update error list cannot contain a title error: the title validator is
gated on presence and every other validator names its own field. -/
theorem updateErrors_absent_title (p : Payload) (now : JsDate) (shift : Int)
    (hN : p.title = none) :
    ∀ e ∈ updateErrors p now shift, e.field ≠ "title" := by
  intro e he hf
  unfold updateErrors at he
  have h2 := mem_filterMap_id he
  rcases List.mem_cons.mp h2 with h3 | h2
  · rw [hN] at h3
    split_ifs at h3 with hcond
    · exact absurd hcond (by simp)
  rcases List.mem_cons.mp h2 with h3 | h2
  · split_ifs at h3
    have hfe := validateDescription_field p.description e h3.symm
    rw [hf] at hfe
    exact absurd hfe (by decide)
  rcases List.mem_cons.mp h2 with h3 | h2
  · split_ifs at h3
    have hfe := validateStatus_field p.status e h3.symm
    rw [hf] at hfe
    exact absurd hfe (by decide)
  rcases List.mem_cons.mp h2 with h3 | h2
  · split_ifs at h3
    have hfe := validatePriority_field p.priority e h3.symm
    rw [hf] at hfe
    exact absurd hfe (by decide)
  rcases List.mem_cons.mp h2 with h3 | h2
  · split_ifs at h3
    have hfe := validateDueDate_field p.dueDate now shift e h3.symm
    rw [hf] at hfe
    exact absurd hfe (by decide)
  · exact absurd h2 (by simp)

/-- Claim C7: update-mode validation fails with exactly one body-field
error when none of the five updatable fields is present; otherwise it
runs only the validators of the present fields (an absent title
contributes no error, unlike create mode) and collects all their errors
into a single failure; the empty payload produces exactly the body
error. -/
theorem c7_update_validation (p : Payload) (now : JsDate) (shift : Int) :
    (updateAllAbsent p = true →
      validateUpdateTask p now shift = .error [bodyRequiredErr]) ∧
    (updateAllAbsent p = false → updateErrors p now shift ≠ [] →
      validateUpdateTask p now shift = .error (updateErrors p now shift)) ∧
    (updateAllAbsent p = false → updateErrors p now shift = [] →
      validateUpdateTask p now shift = .ok (updateSanitize p)) ∧
    (p.title = none → ∀ e ∈ updateErrors p now shift, e.field ≠ "title") ∧
    updateErrors p now shift
      = [(if p.title.isSome then validateTitle p.title else none),
         (if p.description.isSome then validateDescription p.description else none),
         (if p.status.isSome then validateStatus p.status else none),
         (if p.priority.isSome then validatePriority p.priority else none),
         (if p.dueDate.isSome then validateDueDate p.dueDate now shift else none)].filterMap id ∧
    validateUpdateTask ({} : Payload) now shift = .error [bodyRequiredErr] := by
  refine ⟨?_, ?_, ?_, ?_, rfl, rfl⟩
  · intro h; simp [validateUpdateTask, h, bodyRequiredErr]
  · intro h hne
    cases hE : updateErrors p now shift with
    | nil => exact absurd hE hne
    | cons a l => simp [validateUpdateTask, h, hE]
  · intro h hE; simp [validateUpdateTask, h, hE]
  · exact fun hN => updateErrors_absent_title p now shift hN

/-- Witness for c7_update_validation at the empty payload, whose
validation fails with exactly the body error. -/
theorem c7_update_validation_witness :
    (updateAllAbsent ({} : Payload) = true →
      validateUpdateTask ({} : Payload) ⟨20000, 0⟩ 3652 = .error [bodyRequiredErr]) ∧
    (updateAllAbsent ({} : Payload) = false →
      updateErrors ({} : Payload) ⟨20000, 0⟩ 3652 ≠ [] →
      validateUpdateTask ({} : Payload) ⟨20000, 0⟩ 3652
        = .error (updateErrors ({} : Payload) ⟨20000, 0⟩ 3652)) ∧
    (updateAllAbsent ({} : Payload) = false →
      updateErrors ({} : Payload) ⟨20000, 0⟩ 3652 = [] →
      validateUpdateTask ({} : Payload) ⟨20000, 0⟩ 3652
        = .ok (updateSanitize ({} : Payload))) ∧
    (({} : Payload).title = none →
      ∀ e ∈ updateErrors ({} : Payload) ⟨20000, 0⟩ 3652, e.field ≠ "title") ∧
    updateErrors ({} : Payload) ⟨20000, 0⟩ 3652
      = [(if ({} : Payload).title.isSome then validateTitle ({} : Payload).title else none),
         (if ({} : Payload).description.isSome then validateDescription ({} : Payload).description else none),
         (if ({} : Payload).status.isSome then validateStatus ({} : Payload).status else none),
         (if ({} : Payload).priority.isSome then validatePriority ({} : Payload).priority else none),
         (if ({} : Payload).dueDate.isSome then validateDueDate ({} : Payload).dueDate ⟨20000, 0⟩ 3652 else none)].filterMap id ∧
    validateUpdateTask ({} : Payload) ⟨20000, 0⟩ 3652 = .error [bodyRequiredErr] :=
  c7_update_validation {} ⟨20000, 0⟩ 3652

/-- Claim C8: for a create payload accepted by create-mode validation,
the created task's status defaults to pending when status was omitted and
carries the supplied status string otherwise, and likewise priority
defaults to medium; a validated supplied value is an enumeration member,
hence a non-empty string, so the || defaulting in TaskStore.createTask
keeps it. -/
theorem c8_create_defaults (st : TaskStore) (p q : Payload) (now now2 : JsDate)
    (shift : Int) (newId : String)
    (h : validateCreateTask p now shift = .ok q) :
    (p.status = none → (createTaskOp st q newId now2).1.status = some (.jstr "pending")) ∧
    (∀ s, p.status = some (.jstr s) →
      (createTaskOp st q newId now2).1.status = some (.jstr s)) ∧
    (p.priority = none → (createTaskOp st q newId now2).1.priority = some (.jstr "medium")) ∧
    (∀ s, p.priority = some (.jstr s) →
      (createTaskOp st q newId now2).1.priority = some (.jstr s)) := by
  unfold validateCreateTask at h
  by_cases hE : (createErrors p now shift).isEmpty
  · rw [if_pos hE] at h
    have hq := Except.ok.inj h
    have hnil : createErrors p now shift = [] := by
      cases hE2 : createErrors p now shift with
      | nil => rfl
      | cons a l => rw [hE2] at hE; simp at hE
    unfold createErrors at hnil
    obtain ⟨-, -, hst, hpr, -⟩ := filterMap5_eq_nil hnil
    subst hq
    refine ⟨?_, ?_, ?_, ?_⟩
    · intro hp; simp [createTaskOp, hp]
    · intro s hp
      have hmem : s ∈ statusValues := by
        rw [hp] at hst
        simp only [validateStatus] at hst
        split_ifs at hst with hm
        exact hm
      have hne2 : s ≠ "" := by
        simp only [statusValues, List.mem_cons, List.not_mem_nil, or_false] at hmem
        rcases hmem with rfl | rfl | rfl | rfl <;> decide
      simp [createTaskOp, hp, JVal.truthy, hne2]
    · intro hp; simp [createTaskOp, hp]
    · intro s hp
      have hmem : s ∈ priorityValues := by
        rw [hp] at hpr
        simp only [validatePriority] at hpr
        split_ifs at hpr with hm
        exact hm
      have hne2 : s ≠ "" := by
        simp only [priorityValues, List.mem_cons, List.not_mem_nil, or_false] at hmem
        rcases hmem with rfl | rfl | rfl | rfl <;> decide
      simp [createTaskOp, hp, JVal.truthy, hne2]
  · rw [if_neg hE] at h
    simp at h

/-- The valid create payload of the C8 witness scenario. -/
def createWitnessPayload : Payload := { title := some (.jstr "Do taxes") }

/-- Witness for c8_create_defaults: the payload with only a title is
accepted unchanged by create validation and yields the default status and
priority. -/
theorem c8_create_defaults_witness :
    validateCreateTask createWitnessPayload ⟨20000, 0⟩ 3652 = .ok createWitnessPayload ∧
    ((createWitnessPayload.status = none →
       (createTaskOp [] createWitnessPayload "task-1" ⟨20000, 5⟩).1.status
         = some (.jstr "pending")) ∧
     (∀ s, createWitnessPayload.status = some (.jstr s) →
       (createTaskOp [] createWitnessPayload "task-1" ⟨20000, 5⟩).1.status
         = some (.jstr s)) ∧
     (createWitnessPayload.priority = none →
       (createTaskOp [] createWitnessPayload "task-1" ⟨20000, 5⟩).1.priority
         = some (.jstr "medium")) ∧
     (∀ s, createWitnessPayload.priority = some (.jstr s) →
       (createTaskOp [] createWitnessPayload "task-1" ⟨20000, 5⟩).1.priority
         = some (.jstr s))) :=
  ⟨by rfl,
   c8_create_defaults [] createWitnessPayload createWitnessPayload ⟨20000, 0⟩ ⟨20000, 5⟩
     3652 "task-1" (by rfl)⟩

/-- Claim C9: a get, update or delete whose id path parameter is not in
UUID v4 format fails identifier validation with a single error for field
id (the required-message for an empty id, the format message otherwise),
the route short-circuits before any repository operation, and the store
is returned unchanged. -/
theorem c9_invalid_id_short_circuits (id : String) (p : Payload) (now : JsDate)
    (shift : Int) (st : TaskStore) (h : isUuidV4 id = false) :
    validateTaskId id
      = some [⟨"id", if id = "" then "Task ID is required"
                     else "Invalid task ID format (must be a valid UUID v4)"⟩] ∧
    routeGet id st
      = (.verrs [⟨"id", if id = "" then "Task ID is required"
                        else "Invalid task ID format (must be a valid UUID v4)"⟩], st) ∧
    routeUpdate id p now shift st
      = (.verrs [⟨"id", if id = "" then "Task ID is required"
                        else "Invalid task ID format (must be a valid UUID v4)"⟩], st) ∧
    routeDelete id st
      = (.verrs [⟨"id", if id = "" then "Task ID is required"
                        else "Invalid task ID format (must be a valid UUID v4)"⟩], st) := by
  by_cases hid : id = "" <;>
    simp [validateTaskId, routeGet, routeUpdate, routeDelete, hid, h]

/-- Witness for c9_invalid_id_short_circuits at the concrete malformed
identifier abc. -/
theorem c9_invalid_id_short_circuits_witness :
    isUuidV4 "abc" = false ∧
    (validateTaskId "abc"
        = some [⟨"id", if "abc" = "" then "Task ID is required"
                       else "Invalid task ID format (must be a valid UUID v4)"⟩] ∧
     routeGet "abc" store0
        = (.verrs [⟨"id", if "abc" = "" then "Task ID is required"
                          else "Invalid task ID format (must be a valid UUID v4)"⟩], store0) ∧
     routeUpdate "abc" {} ⟨20000, 0⟩ 3652 store0
        = (.verrs [⟨"id", if "abc" = "" then "Task ID is required"
                          else "Invalid task ID format (must be a valid UUID v4)"⟩], store0) ∧
     routeDelete "abc" store0
        = (.verrs [⟨"id", if "abc" = "" then "Task ID is required"
                          else "Invalid task ID format (must be a valid UUID v4)"⟩], store0)) :=
  ⟨by decide, c9_invalid_id_short_circuits "abc" {} ⟨20000, 0⟩ 3652 store0 (by decide)⟩

/-- Claim C10: an update whose body is exactly dueDate: null passes the
whole update pipeline on an existing task (a null key counts as present
for the at-least-one-field check and validateDueDate treats null as
valid), the middleware conversion new Date(null) turns it into the Unix
epoch, and the store persists dueDate = 1970-01-01T00:00:00Z — an instant
the validator would have rejected as past had it been supplied
explicitly (whenever today is after day 0). -/
theorem c10_null_due_date_update (st : TaskStore) (uuid : String) (t : TaskRec)
    (now : JsDate) (shift : Int) (hu : isUuidV4 uuid = true)
    (ht : storeGet st uuid = some t) (hday : 0 < now.day) :
    ∃ t2, routeUpdate uuid { dueDate := some .vnull } now shift st
        = (.okTask t2, storeSet st uuid t2) ∧
      t2.dueDate = some (.vdate ⟨0, 0⟩) ∧
      validateDueDate (some (.vdate ⟨0, 0⟩)) now shift = some pastDueErr := by
  have hne : uuid ≠ "" := by
    intro h0
    rw [h0] at hu
    exact absurd hu (by decide)
  have hvid : validateTaskId uuid = none := by
    simp [validateTaskId, hne, hu]
  have hvu : validateUpdateTask { dueDate := some .vnull } now shift
      = .ok (updateSanitize { dueDate := some .vnull }) := rfl
  have hpast : validateDueDate (some (.vdate ⟨0, 0⟩)) now shift = some pastDueErr := by
    simp only [validateDueDate, startOfDay, JsDate.toMs, pastDueErr]
    rw [if_pos (by omega)]
  refine ⟨{ t with dueDate := some (.vdate ⟨0, 0⟩), updatedAt := now }, ?_, rfl, hpast⟩
  simp only [routeUpdate, hvid, hvu, updateTaskOp, ht]
  rfl

/-- Witness for c10_null_due_date_update at the concrete store holding
task0. -/
theorem c10_null_due_date_update_witness :
    isUuidV4 goodUuid = true ∧ storeGet store0 goodUuid = some task0 ∧
    (0 : Int) < (⟨20000, 500⟩ : JsDate).day ∧
    (∃ t2, routeUpdate goodUuid { dueDate := some .vnull } ⟨20000, 500⟩ 3652 store0
        = (.okTask t2, storeSet store0 goodUuid t2) ∧
      t2.dueDate = some (.vdate ⟨0, 0⟩) ∧
      validateDueDate (some (.vdate ⟨0, 0⟩)) ⟨20000, 500⟩ 3652 = some pastDueErr) :=
  ⟨by decide, by decide, by decide,
   c10_null_due_date_update store0 goodUuid task0 ⟨20000, 500⟩ 3652
     (by decide) (by decide) (by decide)⟩
